import Mathlib

/-!
Shallow embedding of `thunder/tests/opinfos.py`: the operator-conformance
test-matrix engine (condition matchers, operator records, sample
generators, domain clamping and singularity avoidance).

Python numbers are modelled as rationals; tensors are modelled as their
logical flat element list together with explicit sizes and strides where
memory layout matters.  Helpers that live outside `src/`
(`thunder.tests.make_tensor.make_tensor`, `thunder.core.dtypes`,
`thunder.tests.framework._all_device_types`) are modelled from the spec
and marked as such.
-/

namespace Opinfos

/-- Concrete dtypes of `thunder.core.dtypes` that appear in the test
matrix. -/
inductive DType
  | bool8 | uint8 | int8 | int16 | int32 | int64
  | bfloat16 | float16 | float32 | float64
  | complex32 | complex64 | complex128
  deriving DecidableEq, Repr

/-- A dtype argument as accepted by `DecorateInfo`/`OpInfo`: either a
concrete dtype or one of the category objects (`datatypes.exact`,
`datatypes.inexact`, `datatypes.floating`, `datatypes.complexfloating`). -/
inductive DTypeSpec
  | concrete (dt : DType)
  | exact | inexact | floating | complexfloating
  deriving DecidableEq, Repr

/-- Modelled from the spec: the fixed member dtypes of each category
(`thunder.core.dtypes` is not under `src/`; spec §4.4 and glossary:
"exact" groups integer/boolean types, "inexact" the floating and complex
floating ones). -/
def category_members : DTypeSpec → List DType
  | .concrete dt => [dt]
  | .exact => [.bool8, .uint8, .int8, .int16, .int32, .int64]
  | .floating => [.bfloat16, .float16, .float32, .float64]
  | .complexfloating => [.complex32, .complex64, .complex128]
  | .inexact => [.bfloat16, .float16, .float32, .float64,
                 .complex32, .complex64, .complex128]

/-- Modelled from the spec: `datatypes.resolve_dtypes` (§4.4): expand each
category into its fixed member dtypes, pass concrete dtypes through, and
deduplicate. -/
def resolve_dtypes (specs : List DTypeSpec) : List DType :=
  ((specs.map category_members).flatten).dedup

/-- Modelled from the spec: `_all_device_types()` from
`thunder.tests.framework` (not under `src/`): the process-wide default
set of all known device types (§4.4). -/
def _all_device_types : List String := ["cpu", "cuda"]

/-- An executor (backend); `DecorateInfo.is_active` consults its `name`
attribute. -/
structure Executor where
  name : String
  deriving DecidableEq, Repr

/-- The stored fields of `DecorateInfo` (`opinfos.py` lines 163-194).
`decorator` is the effect (a pytest mark), modelled as an opaque tag.
`dtypes` holds the already-resolved concrete dtype set (see
`DecorateInfo.make`). -/
structure DecorateInfo where
  decorator : String
  test_template_name : Option String
  executors : Option (List String)
  devicetypes : Option (List String)
  dtypes : Option (List DType)
  active_if : Bool
  deriving DecidableEq, Repr

/-- `DecorateInfo.__init__` (lines 179-194): stores the filters, resolving
`dtypes` through `resolve_dtypes` when it is not `None`. -/
def DecorateInfo.make (decorator : String) (test_template_name : Option String)
    (executors : Option (List String)) (devicetypes : Option (List String))
    (dtypes : Option (List DTypeSpec)) (active_if : Bool) : DecorateInfo :=
  ⟨decorator, test_template_name, executors, devicetypes,
    dtypes.map resolve_dtypes, active_if⟩

/-- `DecorateInfo.is_active` (lines 196-203): the conjunction of
`active_if` with, for each filter, "is None or contains/equals the
candidate component", in the source's order. -/
def DecorateInfo.is_active (self : DecorateInfo) (test_template_name : String)
    (executor : Executor) (devicetype : String) (dtype : DType) : Bool :=
  self.active_if
    && (self.executors.elim true fun es => decide (executor.name ∈ es))
    && (self.test_template_name.elim true fun n => decide (n = test_template_name))
    && (self.devicetypes.elim true fun ds => decide (devicetype ∈ ds))
    && (self.dtypes.elim true fun ds => decide (dtype ∈ ds))

/-- `Domain = namedtuple("Domain", "low high")` (line 206); a bound is
`None` when absent.  Bounds are modelled as rationals. -/
structure Domain where
  low : Option ℚ
  high : Option ℚ
  deriving DecidableEq, Repr

/-- The wrapped operator callable; only its `__name__` is observable to
this engine (`OpInfo.__init__` line 234). -/
structure Op where
  name : String
  deriving DecidableEq, Repr

/-- The claim-relevant stored fields of `OpInfo` (lines 211-247).  The
generator/reference-callable fields are opaque to the selection and
resolution logic and are not stored here. -/
structure OpInfo where
  op : Op
  name : String
  _devicetypes : List String
  _dtypes : List DTypeSpec
  test_directives : List DecorateInfo
  domain : Domain
  deriving DecidableEq, Repr

/-- `OpInfo.__init__` (lines 214-247): `name` defaults to `op.__name__`,
`devicetypes` to `_all_device_types()`, `dtypes` to
`(datatypes.exact, datatypes.inexact)`, and `domain` to `(None, None)`
(passed explicitly here); `test_directives` defaults to `()`. -/
def OpInfo.make (op : Op) (name : Option String)
    (devicetypes : Option (List String)) (dtypes : Option (List DTypeSpec))
    (test_directives : List DecorateInfo)
    (domain : Option ℚ × Option ℚ) : OpInfo where
  op := op
  name := match name with | some n => n | none => op.name
  _devicetypes := match devicetypes with | some d => d | none => _all_device_types
  _dtypes := match dtypes with | some d => d | none => [.exact, .inexact]
  test_directives := test_directives
  domain := ⟨domain.1, domain.2⟩

/-- `OpInfo.device_types` (lines 269-270): `set(self._devicetypes)`. -/
def OpInfo.device_types (self : OpInfo) : Finset String :=
  self._devicetypes.toFinset

/-- `OpInfo.dtypes` (lines 272-276) in the supported `device_type=None`
case: `datatypes.resolve_dtypes(self._dtypes)`. -/
def OpInfo.dtypes (self : OpInfo) : List DType :=
  resolve_dtypes self._dtypes

/-- The list comprehension of `OpInfo.test_decorators` (lines 279-280),
written as the left-to-right recursion it performs over
`self.test_directives`. -/
def decorators_of (test_name : String) (executor : Executor)
    (devicetype : String) (dtype : DType) : List DecorateInfo → List String
  | [] => []
  | d :: rest =>
      if d.is_active test_name executor devicetype dtype then
        d.decorator :: decorators_of test_name executor devicetype dtype rest
      else
        decorators_of test_name executor devicetype dtype rest

/-- `OpInfo.test_decorators` (lines 279-280). -/
def OpInfo.test_decorators (self : OpInfo) (test_name : String)
    (executor : Executor) (devicetype : String) (dtype : DType) : List String :=
  decorators_of test_name executor devicetype dtype self.test_directives

/-- `acos_opinfo` (lines 410-425): domain `(-1, 1)` and a single xfail
directive for CPU float16/complex32 on the torch-consistency test. -/
def acos_opinfo : OpInfo :=
  OpInfo.make ⟨"acos"⟩ none none none
    [DecorateInfo.make "xfail" (some "test_core_vs_torch_consistency")
      none (some ["cpu"])
      (some [.concrete .float16, .concrete .complex32]) true]
    (some (-1), some 1)

/-- Lines 293-294 of `elementwise_unary_generator`: the `low` argument
passed to `make_tensor`
(`low = None if op.domain.low is None else max(-9, op.domain.low)`). -/
def elementwise_unary_low (domain : Domain) : Option ℚ :=
  match domain.low with
  | none => none
  | some l => some (max (-9) l)

/-- Lines 293-294 of `elementwise_unary_generator`: the `high` argument
passed to `make_tensor`
(`high = None if op.domain.high is None else min(9, op.domain.high)`). -/
def elementwise_unary_high (domain : Domain) : Option ℚ :=
  match domain.high with
  | none => none
  | some h => some (min 9 h)

/-- Modelled from the spec: `make_tensor` (from
`thunder.tests.make_tensor`, not under `src/`) substitutes the fixed
generation window bound `-9` resp. `9` when a bound is absent (§4.1), and
draws element values from the closed-open interval `[low, high)` (§3:
"interval is closed at `low`, open at `high`"). -/
def make_tensor_possible (low high : Option ℚ) (v : ℚ) : Prop :=
  low.getD (-9) ≤ v ∧ v < high.getD 9

/-- The effective sampling bounds the elementwise unary generator ends up
using: the bounds of lines 293-294 with an absent bound falling back to
`make_tensor`'s window bound. -/
def clamp_domain (domain : Domain) : ℚ × ℚ :=
  ((elementwise_unary_low domain).getD (-9),
   (elementwise_unary_high domain).getD 9)

/-- The set of element values the elementwise unary generator can place in
a generated tensor for an operator with the given domain: exactly the
values `make_tensor` can draw for the clamped bounds. -/
def elementwise_unary_possible (domain : Domain) (v : ℚ) : Prop :=
  make_tensor_possible (elementwise_unary_low domain)
    (elementwise_unary_high domain) v

/-- `torch.where(cond, a, b)` elementwise on flat element lists. -/
def torch_where (cond : List Bool) (a b : List ℚ) : List ℚ :=
  List.zipWith (fun c (ab : ℚ × ℚ) => if c then ab.1 else ab.2) cond (a.zip b)

/-- `push_away_from_singularities` (lines 36-43) on the flat list of a
tensor's element values; `singularity_fn` is elementwise, reporting each
element's signed distance to the nearest singularity. -/
def push_away_from_singularities (x : List ℚ) (singularity_fn : ℚ → ℚ)
    (eps : ℚ) : List ℚ :=
  let x_dist := x.map singularity_fn
  let x_ := torch_where (x_dist.map fun d => decide (d > 0) && decide (d < eps))
    (x.map fun v => v + eps) x
  torch_where (x_dist.map fun d => decide (d < 0) && decide (d > -eps))
    (x.map fun v => v - eps) x_

/-- A tensor as this engine observes it: logical sizes, strides (in
elements), the flat list of logical element values, and the
requires-grad flag.  The padding slots of a noncontiguous layout are
never part of the logical elements. -/
structure Tensor where
  sizes : List ℕ
  strides : List ℤ
  data : List ℚ
  requires_grad : Bool
  deriving DecidableEq, Repr

/-- Number of logical elements (`t.numel()`). -/
def Tensor.numel (t : Tensor) : ℕ := t.sizes.prod

/-- Row-major (contiguous) strides of a shape: each dimension's stride is
the product of the sizes to its right; this is the layout
`Tensor.new_empty` produces. -/
def contig_strides : List ℕ → List ℤ
  | [] => []
  | _ :: rest => ((rest.prod : ℕ) : ℤ) :: contig_strides rest

/-- Torch's contiguity check over (size, stride) pairs processed from the
innermost dimension outwards with an expected-stride accumulator;
size-one dimensions are skipped. -/
def is_contiguous_aux : List (ℕ × ℤ) → ℤ → Bool
  | [], _ => true
  | (sz, st) :: rest, z =>
      if sz = 1 then is_contiguous_aux rest z
      else if st = z then is_contiguous_aux rest (z * sz)
      else false

/-- `t.is_contiguous()`: empty tensors are contiguous; otherwise the
strides must match the row-major expectation, size-one dimensions
excepted. -/
def Tensor.is_contiguous (t : Tensor) : Bool :=
  if t.numel = 0 then true
  else is_contiguous_aux ((t.sizes.zip t.strides).reverse) 1

/-- `noncontiguous_like` (lines 55-73).  If `t` is already noncontiguous
it is returned unchanged.  Otherwise the result views every second slot
of a fresh buffer of shape `t.shape + (2,)`: same sizes and element
values as `t`, strides doubled (the weird fill values occupy the skipped
slots and are not logical elements), requires-grad preserved. -/
def noncontiguous_like (t : Tensor) : Tensor :=
  if !t.is_contiguous then t
  else
    ⟨t.sizes, (contig_strides (t.sizes ++ [2])).dropLast, t.data,
      t.requires_grad⟩

/-- A `SampleInput` whose positional arguments are all tensors (the shape
used by the elementwise generators). -/
structure SampleInput where
  args : List Tensor
  deriving DecidableEq, Repr

/-- `elementwise_binary_generator` (lines 1325-1333), parameterised by the
`make_tensor` draw (indexed by call order so distinct calls may draw
distinct tensors): yields `SampleInput(a, b)` with `a`, `b` of shape
`(4, 4)`, then the broadcasting `SampleInput(a, c)` with `c` of shape
`(4, 1)`. -/
def elementwise_binary_generator (make_tensor : ℕ → List ℕ → Tensor) :
    List SampleInput :=
  let a := make_tensor 0 [4, 4]
  let b := make_tensor 1 [4, 4]
  let c := make_tensor 2 [4, 1]
  [⟨[a, b]⟩, ⟨[a, c]⟩]

/-- The `dim` argument of a reduction sample: `None`, a single int, or a
tuple of ints. -/
inductive DimArg
  | none
  | int (i : ℤ)
  | tuple (dims : List ℤ)
  deriving DecidableEq, Repr

/-- One sample yielded by `reduction_sample_generator` (lines 2352-2386):
the tensor and, when the positional arguments are `(a, dim, keepdim)`,
the `(dim, keepdim)` tail; `Option.none` for the final case whose only
positional argument is the tensor.  (The `dtype` keyword argument is
`None` in every yielded case and is not recorded.) -/
structure RSample where
  a : Tensor
  argtail : Option (DimArg × Bool)
  deriving DecidableEq, Repr

/-- `reduction_sample_generator` (lines 2352-2386), parameterised by the
`make_tensor` draw (indexed by call order): the seven fixed
`(shape, dim, keepdim)` cases of the source, in order. -/
def reduction_sample_generator (make_tensor : ℕ → List ℕ → Tensor) :
    List RSample :=
  [⟨make_tensor 0 [4, 4], some (.none, false)⟩,
   ⟨make_tensor 1 [5], some (.none, true)⟩,
   ⟨make_tensor 2 [5], some (.int 0, false)⟩,
   ⟨make_tensor 3 [8, 1, 6], some (.int 1, true)⟩,
   ⟨make_tensor 4 [8, 7, 5, 1], some (.tuple [0, 1], true)⟩,
   ⟨make_tensor 5 [8, 7, 5, 1], some (.tuple [1, 3], false)⟩,
   ⟨make_tensor 6 [4, 4], Option.none⟩]

/-- One sample yielded by `var_sample_generator`: the tensor, `dim` and
`keepdim` carried by every yield, plus the `unbiased` flag (positional,
present only in the `u is not None` branch) and the `correction` keyword
(present only in the `c is not None` branch). -/
structure VarSample where
  a : Tensor
  dim : DimArg
  keepdim : Bool
  unbiased : Option Bool
  correction : Option ℕ
  deriving DecidableEq, Repr

/-- The body of `var_sample_generator`'s loop (lines 2451-2463) for one
`(u, c, sample)` triple: `continue` (here `Option.none`) when both `u`
and `c` are given, otherwise the branch-specific yield. -/
def var_case (u : Option Bool) (c : Option ℕ) (s : RSample) :
    Option VarSample :=
  let dim := match s.argtail with | some (d, _) => d | Option.none => DimArg.none
  let keepdim := match s.argtail with | some (_, k) => k | Option.none => false
  match u, c with
  | some _, some _ => Option.none
  | some ub, Option.none => some ⟨s.a, dim, keepdim, some ub, Option.none⟩
  | Option.none, some co => some ⟨s.a, dim, keepdim, Option.none, some co⟩
  | Option.none, Option.none =>
      some ⟨s.a, dim, keepdim, Option.none, Option.none⟩

/-- `var_sample_generator` (lines 2447-2463): the product of
`unbiased = (None, True, False)`, `correction = (None, 0, 1)` and the
reduction samples, in `itertools.product` order (rightmost fastest),
filtered through the loop body. -/
def var_sample_generator (make_tensor : ℕ → List ℕ → Tensor) :
    List VarSample :=
  let unbiased : List (Option Bool) := [Option.none, some true, some false]
  let correction : List (Option ℕ) := [Option.none, some 0, some 1]
  let samples := reduction_sample_generator make_tensor
  (unbiased.flatMap fun u => correction.flatMap fun c =>
    samples.map fun s => (u, c, s)).filterMap fun ucs =>
      var_case ucs.1 ucs.2.1 ucs.2.2

/-- A concrete `make_tensor` draw used to instantiate generator theorems:
a fresh contiguous zero tensor of the requested shape. -/
def make_zeros (idx : ℕ) (shape : List ℕ) : Tensor :=
  ⟨shape, contig_strides shape, List.replicate shape.prod 0, false⟩

/-- C1: `DecorateInfo.is_active` returns true iff `active_if` is true, the
test-name filter is unset or equals the candidate test name, the executor
filter is unset or contains the candidate executor's name, the device-type
filter is unset or contains the candidate device type, and the dtype
filter is unset or contains the candidate dtype. -/
theorem is_active_iff (m : DecorateInfo) (tn : String) (ex : Executor)
    (dt : String) (dy : DType) :
    m.is_active tn ex dt dy = true ↔
      (m.active_if = true
        ∧ (m.test_template_name = none ∨ m.test_template_name = some tn)
        ∧ (m.executors = none ∨ ∃ es, m.executors = some es ∧ ex.name ∈ es)
        ∧ (m.devicetypes = none ∨ ∃ ds, m.devicetypes = some ds ∧ dt ∈ ds)
        ∧ (m.dtypes = none ∨ ∃ ks, m.dtypes = some ks ∧ dy ∈ ks)) := by
  rcases m with ⟨dec, otn, oex, odt, ody, ai⟩
  simp only [DecorateInfo.is_active]
  cases otn <;> cases oex <;> cases odt <;> cases ody <;> cases ai <;>
    simp <;> tauto

/-- C8: when a candidate component changes but `m`'s corresponding filter
is unset (`None`), `is_active` is unchanged: each hypothesis says the two
candidates agree on a component unless `m` does not filter on it. -/
theorem is_active_unset_filter_independent (m : DecorateInfo)
    (tn₁ tn₂ : String) (ex₁ ex₂ : Executor) (dt₁ dt₂ : String)
    (dy₁ dy₂ : DType)
    (htn : m.test_template_name = none ∨ tn₁ = tn₂)
    (hex : m.executors = none ∨ ex₁ = ex₂)
    (hdt : m.devicetypes = none ∨ dt₁ = dt₂)
    (hdy : m.dtypes = none ∨ dy₁ = dy₂) :
    m.is_active tn₁ ex₁ dt₁ dy₁ = m.is_active tn₂ ex₂ dt₂ dy₂ := by
  rcases m with ⟨dec, otn, oex, odt, ody, ai⟩
  simp only [DecorateInfo.is_active]
  rcases htn with h₁ | h₁ <;> rcases hex with h₂ | h₂ <;>
    rcases hdt with h₃ | h₃ <;> rcases hdy with h₄ | h₄ <;>
      simp_all

/-- Witness for C8: a matcher with an unset executor filter decides
identically for two candidates that differ only in the executor. -/
theorem is_active_unset_filter_independent_witness :
    DecorateInfo.is_active
        ⟨"skip", some "t", none, some ["cpu"], some [.float16], true⟩
        "t" ⟨"torch"⟩ "cpu" .float16
      = DecorateInfo.is_active
        ⟨"skip", some "t", none, some ["cpu"], some [.float16], true⟩
        "t" ⟨"nvFuser"⟩ "cpu" .float16 :=
  is_active_unset_filter_independent
    ⟨"skip", some "t", none, some ["cpu"], some [.float16], true⟩
    "t" "t" ⟨"torch"⟩ ⟨"nvFuser"⟩ "cpu" "cpu" .float16 .float16
    (Or.inr rfl) (Or.inl rfl) (Or.inr rfl) (Or.inr rfl)

/-- C10: an `OpInfo` constructed without explicit `name`, `devicetypes` or
`dtypes` takes its name from the wrapped callable, reports the set of all
known device types, and stores the default `(exact, inexact)` category
pair, which `dtypes()` then resolves. -/
theorem opinfo_defaults (op : Op) (tds : List DecorateInfo)
    (dom : Option ℚ × Option ℚ) :
    (OpInfo.make op none none none tds dom).name = op.name
    ∧ (OpInfo.make op none none none tds dom).device_types
        = _all_device_types.toFinset
    ∧ (OpInfo.make op none none none tds dom)._dtypes
        = [DTypeSpec.exact, DTypeSpec.inexact]
    ∧ (OpInfo.make op none none none tds dom).dtypes
        = resolve_dtypes [DTypeSpec.exact, DTypeSpec.inexact] :=
  ⟨rfl, rfl, rfl, rfl⟩

/-- C3: with both domain bounds present the effective sampling bounds of
the elementwise unary generator are exactly (hence never wider than)
`[max(-9, low), min(9, high)]`, and an absent bound defers to the window
bound `-9` resp. `9`. -/
theorem clamp_domain_spec (l h : ℚ) :
    ((clamp_domain ⟨some l, some h⟩).1 = max (-9) l
      ∧ (clamp_domain ⟨some l, some h⟩).2 = min 9 h
      ∧ max (-9) l ≤ (clamp_domain ⟨some l, some h⟩).1
      ∧ (clamp_domain ⟨some l, some h⟩).2 ≤ min 9 h)
    ∧ (clamp_domain ⟨none, some h⟩).1 = -9
    ∧ (clamp_domain ⟨some l, none⟩).2 = 9
    ∧ clamp_domain ⟨none, none⟩ = (-9, 9) :=
  ⟨⟨rfl, rfl, le_refl _, le_refl _⟩, rfl, rfl, rfl⟩

/-- The comprehension recursion of `test_decorators` is the map of
`decorator` over the filter of active directives. -/
theorem decorators_of_eq_filter_map (tn : String) (ex : Executor)
    (dt : String) (dy : DType) (l : List DecorateInfo) :
    decorators_of tn ex dt dy l
      = (l.filter fun d => d.is_active tn ex dt dy).map
          DecorateInfo.decorator := by
  induction l with
  | nil => rfl
  | cons d rest ih =>
      by_cases h : d.is_active tn ex dt dy <;>
        simp [decorators_of, List.filter_cons, h, ih]

/-- C2: `test_decorators` returns the decorators of exactly the active
entries of `test_directives`, in registration order; in particular with
two directives both active for the candidate, both decorators are
returned in registration order. -/
theorem test_decorators_spec (op : OpInfo) (tn : String) (ex : Executor)
    (dt : String) (dy : DType) (m₁ m₂ : DecorateInfo)
    (h₁ : m₁.is_active tn ex dt dy = true)
    (h₂ : m₂.is_active tn ex dt dy = true) :
    op.test_decorators tn ex dt dy
      = (op.test_directives.filter fun d => d.is_active tn ex dt dy).map
          DecorateInfo.decorator
    ∧ (OpInfo.make op.op none none none [m₁, m₂]
          (none, none)).test_decorators tn ex dt dy
        = [m₁.decorator, m₂.decorator] := by
  constructor
  · exact decorators_of_eq_filter_map tn ex dt dy op.test_directives
  · simp [OpInfo.test_decorators, OpInfo.make, decorators_of, h₁, h₂]

/-- Witness for C2, at the `acos` record and two always-active
directives. -/
theorem test_decorators_spec_witness :
    acos_opinfo.test_decorators "t" ⟨"torch"⟩ "cpu" DType.float16
      = (acos_opinfo.test_directives.filter fun d =>
          d.is_active "t" ⟨"torch"⟩ "cpu" DType.float16).map
          DecorateInfo.decorator
    ∧ (OpInfo.make acos_opinfo.op none none none
          [⟨"skip", none, none, none, none, true⟩,
           ⟨"xfail", none, none, none, none, true⟩]
          (none, none)).test_decorators "t" ⟨"torch"⟩ "cpu" DType.float16
        = ["skip", "xfail"] :=
  test_decorators_spec acos_opinfo "t" ⟨"torch"⟩ "cpu" DType.float16
    ⟨"skip", none, none, none, none, true⟩
    ⟨"xfail", none, none, none, none, true⟩ (by decide) (by decide)

/-- `torch_where` keeps the common length of its operands. -/
theorem push_away_length (x : List ℚ) (sf : ℚ → ℚ) (eps : ℚ) :
    (push_away_from_singularities x sf eps).length = x.length := by
  simp [push_away_from_singularities, torch_where]

/-- C4: `push_away_from_singularities` acts elementwise: writing `d` for
the signed distance `singularity_fn` reports for an element, the output
element is the input plus `eps` when `d ∈ (0, eps)`, the input minus
`eps` when `d ∈ (-eps, 0)`, and the input unchanged otherwise (in
particular at `d = 0`, `d = eps` and `d = -eps`). -/
theorem push_away_from_singularities_spec (x : List ℚ) (sf : ℚ → ℚ)
    (eps : ℚ) (heps : 0 < eps) (i : ℕ) (hi : i < x.length) :
    (push_away_from_singularities x sf eps).length = x.length
    ∧ (push_away_from_singularities x sf eps).getD i 0 =
        (let v := x.getD i 0
         let d := sf v
         if 0 < d ∧ d < eps then v + eps
         else if -eps < d ∧ d < 0 then v - eps
         else v) := by
  refine ⟨push_away_length x sf eps, ?_⟩
  have hi' : i < (push_away_from_singularities x sf eps).length := by
    rw [push_away_length]; exact hi
  rw [List.getD_eq_getElem _ _ hi', List.getD_eq_getElem _ _ hi]
  simp only [push_away_from_singularities, torch_where]
  rw [List.getElem_zipWith]
  rw [List.getElem_zip]
  simp only [List.getElem_map, List.getElem_zipWith, List.getElem_zip]
  by_cases h1 : 0 < sf x[i] ∧ sf x[i] < eps
  · have hns : ¬ (sf x[i] < 0 ∧ -eps < sf x[i]) := fun hc =>
      absurd hc.1 (not_lt.mpr h1.1.le)
    simp [h1, hns]
  · by_cases h2 : sf x[i] < 0 ∧ -eps < sf x[i]
    · have h2' : -eps < sf x[i] ∧ sf x[i] < 0 := ⟨h2.2, h2.1⟩
      simp [h1, h2, h2']
    · have h2' : ¬ (-eps < sf x[i] ∧ sf x[i] < 0) := fun hc => h2 ⟨hc.2, hc.1⟩
      simp [h1, h2, h2']

/-- Witness for C4: a two-element tensor, the identity as singularity
function, `eps = 1`, inspected at index `0`. -/
theorem push_away_from_singularities_spec_witness :
    (push_away_from_singularities [(1 : ℚ)/2, 5] (fun v => v) 1).length
        = ([(1 : ℚ)/2, 5] : List ℚ).length
    ∧ (push_away_from_singularities [(1 : ℚ)/2, 5] (fun v => v) 1).getD 0 0 =
        (let v := ([(1 : ℚ)/2, 5] : List ℚ).getD 0 0
         let d := (fun v : ℚ => v) v
         if 0 < d ∧ d < 1 then v + 1
         else if -1 < d ∧ d < 0 then v - 1
         else v) :=
  push_away_from_singularities_spec [(1 : ℚ)/2, 5] (fun v => v) 1
    (by norm_num) 0 (by norm_num)

/-- C9: `noncontiguous_like` returns an already-noncontiguous tensor
unchanged; consequently, whenever a first application yields a
noncontiguous tensor, a second application is the identity on it. -/
theorem noncontiguous_like_idempotent (t : Tensor) :
    (t.is_contiguous = false → noncontiguous_like t = t)
    ∧ ((noncontiguous_like t).is_contiguous = false →
        noncontiguous_like (noncontiguous_like t) = noncontiguous_like t) := by
  have key : ∀ s : Tensor, s.is_contiguous = false →
      noncontiguous_like s = s := by
    intro s hs
    simp [noncontiguous_like, hs]
  exact ⟨key t, key _⟩

/-- Witness for C9: a strided (noncontiguous) vector is returned
unchanged, and re-applying `noncontiguous_like` to the noncontiguous
result built from a contiguous vector changes nothing. -/
theorem noncontiguous_like_idempotent_witness :
    noncontiguous_like ⟨[3], [2], [0, 0, 0], false⟩
        = ⟨[3], [2], [0, 0, 0], false⟩
    ∧ noncontiguous_like (noncontiguous_like ⟨[3], [1], [1, 2, 3], false⟩)
        = noncontiguous_like ⟨[3], [1], [1, 2, 3], false⟩ :=
  ⟨(noncontiguous_like_idempotent ⟨[3], [2], [0, 0, 0], false⟩).1 (by decide),
   (noncontiguous_like_idempotent ⟨[3], [1], [1, 2, 3], false⟩).2 (by decide)⟩

/-- C6: for any `make_tensor` draw that honours the requested shape,
`elementwise_binary_generator` yields exactly two samples: first two
operands of shape `(4, 4)`, then the broadcast pairing of shapes
`(4, 4)` and `(4, 1)`. -/
theorem elementwise_binary_generator_spec (mk : ℕ → List ℕ → Tensor)
    (hmk : ∀ n s, (mk n s).sizes = s) :
    (elementwise_binary_generator mk).length = 2
    ∧ ((elementwise_binary_generator mk).map fun smp =>
        smp.args.map Tensor.sizes)
      = [[[4, 4], [4, 4]], [[4, 4], [4, 1]]] := by
  constructor
  · rfl
  · simp [elementwise_binary_generator, hmk]

/-- Witness for C6, at the concrete zero-tensor draw. -/
theorem elementwise_binary_generator_spec_witness :
    (elementwise_binary_generator make_zeros).length = 2
    ∧ ((elementwise_binary_generator make_zeros).map fun smp =>
        smp.args.map Tensor.sizes)
      = [[[4, 4], [4, 4]], [[4, 4], [4, 1]]] :=
  elementwise_binary_generator_spec make_zeros (fun _ _ => rfl)

/-- C7: no sample yielded by `var_sample_generator` carries both an
explicit `unbiased` flag and an explicit `correction` value; the
combination where both are specified is skipped. -/
theorem var_sample_generator_exclusive (mk : ℕ → List ℕ → Tensor)
    (v : VarSample) (hv : v ∈ var_sample_generator mk) :
    ¬ (v.unbiased.isSome ∧ v.correction.isSome) := by
  obtain ⟨ucs, hmem, hc⟩ := List.mem_filterMap.mp hv
  obtain ⟨u, c, s⟩ := ucs
  cases u <;> cases c <;> simp [var_case] at hc <;> subst hc <;> simp

/-- Witness for C7: the first yielded sample (neither parameter given). -/
theorem var_sample_generator_exclusive_witness :
    ¬ ((some true : Option Bool).isSome ∧ (Option.none : Option ℕ).isSome) :=
  var_sample_generator_exclusive make_zeros
    ⟨make_zeros 0 [4, 4], .none, false, some true, Option.none⟩ (by decide)

/-- C5 as stated is false: `make_tensor` draws from the closed-open
interval, so for the `acos` domain `(-1, 1)` the boundary value `-1`
itself is a possible generated element value. -/
theorem acos_boundary_claim_refuted :
    ¬ (∀ v : ℚ, elementwise_unary_possible acos_opinfo.domain v →
        v ≠ -1 ∧ v ≠ 1) := by
  intro hcl
  have hp : elementwise_unary_possible acos_opinfo.domain (-1) := by
    constructor <;> decide
  exact (hcl (-1) hp).1 rfl

/-- C5 amended: every value the elementwise unary generator can draw for
the `acos` domain `(-1, 1)` lies in `[-1, 1)` — so a value exactly `1` is
never generated, while exactly `-1` is permitted (the interval is closed
at `low`). -/
theorem acos_generator_values (v : ℚ)
    (hv : elementwise_unary_possible acos_opinfo.domain v) :
    -1 ≤ v ∧ v < 1 ∧ v ≠ 1 := by
  have hl : (elementwise_unary_low acos_opinfo.domain).getD (-9) = -1 := by
    decide
  have hh : (elementwise_unary_high acos_opinfo.domain).getD 9 = 1 := by
    decide
  obtain ⟨h1, h2⟩ := hv
  rw [hl] at h1
  rw [hh] at h2
  exact ⟨h1, h2, ne_of_lt h2⟩

/-- Witness for C5's amended claim, at the possible value `0`. -/
theorem acos_generator_values_witness :
    (-1 : ℚ) ≤ 0 ∧ (0 : ℚ) < 1 ∧ (0 : ℚ) ≠ 1 :=
  acos_generator_values 0 (by constructor <;> decide)

end Opinfos
